import Mathlib

/-!
# Verification of the obd-dashboard telemetry controllers

Shallow embedding of the ODB controller (`app/controllers/odb/odb.py`),
the authentication controller (`app/controllers/auth.py`) and the
`ODBSession` model (`app/models/odb/session.py`).

The database session is modelled as an explicit state value (`DB`)
holding the relational tables, together with a log of the mutating
ORM operations (`add` / `flush` / `commit`) so that claims about
commit placement can be stated.  Sensor values are carried through
unchanged by the code, so they are modelled as opaque strings.
Python `datetime` values are modelled by the string that
`str(dt.timestamp())` renders (their stringified epoch seconds),
which is the only aspect of a datetime the ingestion logic inspects.
-/

set_option autoImplicit false

namespace ObdDashboard

/-- A Python `datetime`, modelled by the decimal string of its epoch
seconds as rendered by `str(dt.timestamp())` (e.g. `"1634140123.456"`).
The ingestion code only ever renders a datetime this way or stores it
opaquely. -/
structure PyDateTime where
  timestampStr : String
  deriving Repr, DecidableEq

/-- `app.models.user.User` (fields used by the controllers). -/
structure User where
  id : Nat
  email : String
  first_name : String
  last_name : String
  password : String
  deriving Repr, DecidableEq

/-- `app.models.odb.session.ODBSession`: `id` is a `String(15)` primary
key column, `user_id` references the user, `date` is a datetime. -/
structure ODBSession where
  id : String
  user_id : Nat
  date : PyDateTime
  deriving Repr, DecidableEq

/-- The declared capacity of the `ODBSession.id` column:
`id = Column(String(15), primary_key=True)`. -/
def ODBSession.ID_COLUMN_CAPACITY : Nat := 15

/-- A persisted GPS reading row (session reference, latitude,
longitude, timestamp). -/
structure GPSReading where
  session_id : String
  lat : String
  lng : String
  date : PyDateTime
  deriving Repr, DecidableEq

/-- A persisted single-valued sensor reading row (engine load, engine
RPM, speed or fuel level), referencing its session. -/
structure SensorReading where
  session_id : String
  value : String
  date : PyDateTime
  deriving Repr, DecidableEq

/-- Mutating operations issued to the ORM session, logged in order. -/
inductive DBEvent where
  | add : DBEvent
  | flush : DBEvent
  | commit : DBEvent
  deriving Repr, DecidableEq

/-- The relational store reachable through `self.db_session`, plus the
ordered log of mutating ORM calls made against it. -/
structure DB where
  users : List User
  sessions : List ODBSession
  gps_readings : List GPSReading
  engine_load_readings : List SensorReading
  engine_rpm_readings : List SensorReading
  speed_readings : List SensorReading
  fuel_level_readings : List SensorReading
  log : List DBEvent
  deriving Repr, DecidableEq

/-- Exceptions that escape the embedded controller code.
`odbControllerError` is the controller's own `ODBControllerError`
domain exception; `keyError` is a raw Python `KeyError` from a direct
`data[...]` lookup; `indexError` is the raw error pandas raises when a
CSV has no first row. -/
inductive PyError where
  | odbControllerError (msg : String)
  | keyError (key : String)
  | indexError
  deriving Repr, DecidableEq

/-- Modelled from the spec: the sensor key labels
(`app.constants.odb.ODBSensorLabels`) are not part of the sources; the
spec only says recognized keys include GPS latitude/longitude, fuel
level, engine load and engine RPM, so the labels are carried as opaque
strings. -/
structure ODBSensorLabels where
  LATITUDE : String
  LONGITUDE : String
  FUEL_LEVEL : String
  ENGINE_LOAD : String
  ENGINE_RPM : String
  deriving Repr, DecidableEq

/-- Modelled from the spec: `ODBSensorPrefixes.FULL_NAME`
(`app.constants.odb`) is not part of the sources; the spec describes a
"sensor full-name" key pattern that a key matches when it starts with
the pattern, so it is carried as an opaque string, matched by
`matchesFullName` below. -/
structure ODBSensorLabelPatterns where
  FULL_NAME : String
  deriving Repr, DecidableEq

/-- Modelled from the spec: a key matches the sensor full-name pattern
exactly when the `FULL_NAME` text starts the key (the code anchors the
regex `f'{FULL_NAME}.*'` with `re.match`, which only matches at the
start of the key). Stated character-wise on the underlying lists. -/
def matchesFullName (pats : ODBSensorLabelPatterns) (k : String) : Bool :=
  pats.FULL_NAME.data.isPrefixOf k.data

/-- A TORQUE request payload: a flat string-keyed mapping. Modelled as
an association list; Python dict semantics (unique keys, first-match
lookup) coincide with `List.lookup` for the properties considered. -/
abbrev RequestData : Type := List (String × String)

/-- `data.keys()` of the request mapping. -/
def RequestData.keys (data : RequestData) : List String :=
  data.map Prod.fst

/-- `data.get(k)` / `data[k]` lookup on the request mapping. -/
def RequestData.get (data : RequestData) (k : String) : Option String :=
  List.lookup k data

/-- `ODBController._resolve_user`: reads `data.get('eml')`; raises
`ODBControllerError('User email not found')` when the value is absent
or falsy (the empty string), queries the first user with that email,
raises `ODBControllerError('User does not exist')` when none matches,
and returns the user otherwise. -/
def ODBController.resolve_user (db : DB) (data : RequestData) : Except PyError User :=
  match data.get "eml" with
  | none => .error (.odbControllerError "User email not found")
  | some user_email =>
    if user_email = "" then
      .error (.odbControllerError "User email not found")
    else
      match db.users.find? (fun u => u.email == user_email) with
      | none => .error (.odbControllerError "User does not exist")
      | some user => .ok user

/-- Modelled from the spec: `SessionController.get_or_create`
(`app/controllers/odb/session.py`) is not part of the sources; the spec
says session resolution is a get-or-create keyed by user id plus the
client-supplied session token, so the token is used as the session id.
Returns the resolved row and the resulting store. -/
def SessionController.get_or_create (db : DB) (user_id : Nat) (token : String)
    (now : PyDateTime) : ODBSession × DB :=
  match db.sessions.find? (fun s => s.id == token && s.user_id == user_id) with
  | some s => (s, db)
  | none =>
    let s : ODBSession := ⟨token, user_id, now⟩
    (s, { db with sessions := db.sessions ++ [s], log := db.log ++ [DBEvent.add] })

/-- Modelled from the spec: `GPSController.register_gps_reading`
(`app/controllers/odb/gps.py`) is not part of the sources; the spec
says register-single persists one timestamped reading row for the
session and returns the inserted row. -/
def GPSController.register_gps_reading (db : DB) (session : ODBSession)
    (lat lng : String) (date : PyDateTime) : GPSReading × DB :=
  let r : GPSReading := ⟨session.id, lat, lng, date⟩
  (r, { db with gps_readings := db.gps_readings ++ [r], log := db.log ++ [DBEvent.add] })

/-- Modelled from the spec: `FuelController.register_fuel_level`
(`app/controllers/odb/fuel.py`) is not part of the sources; the spec
says register-single persists one timestamped reading row for the
session and returns the inserted row. -/
def FuelController.register_fuel_level (db : DB) (session : ODBSession)
    (value : String) (date : PyDateTime) : SensorReading × DB :=
  let r : SensorReading := ⟨session.id, value, date⟩
  (r, { db with fuel_level_readings := db.fuel_level_readings ++ [r],
                log := db.log ++ [DBEvent.add] })

/-- Modelled from the spec: `EngineController.register_load`
(`app/controllers/odb/engine.py`) is not part of the sources; the spec
says register-single persists one timestamped reading row for the
session and returns the inserted row. -/
def EngineController.register_load (db : DB) (session : ODBSession)
    (value : String) (date : PyDateTime) : SensorReading × DB :=
  let r : SensorReading := ⟨session.id, value, date⟩
  (r, { db with engine_load_readings := db.engine_load_readings ++ [r],
                log := db.log ++ [DBEvent.add] })

/-- Modelled from the spec: `EngineController.register_rpm`
(`app/controllers/odb/engine.py`) is not part of the sources; the spec
says register-single persists one timestamped reading row for the
session and returns the inserted row. -/
def EngineController.register_rpm (db : DB) (session : ODBSession)
    (value : String) (date : PyDateTime) : SensorReading × DB :=
  let r : SensorReading := ⟨session.id, value, date⟩
  (r, { db with engine_rpm_readings := db.engine_rpm_readings ++ [r],
                log := db.log ++ [DBEvent.add] })

/-- `ODBController.process_sensor_params`: drops the request when any
key starts with the sensor full-name pattern; otherwise resolves the
user, resolves or creates the session from `data['session']` (a raw
indexing that raises `KeyError` when absent), then registers one
reading per recognized sensor key present (GPS only when both latitude
and longitude are present). `now` stands for `datetime.datetime.now()`. -/
def ODBController.process_sensor_params (pats : ODBSensorLabelPatterns)
    (labels : ODBSensorLabels) (db : DB) (data : RequestData)
    (now : PyDateTime) : Except PyError DB :=
  if (RequestData.keys data).any (fun k => matchesFullName pats k) then
    .ok db
  else
    match ODBController.resolve_user db data with
    | .error e => .error e
    | .ok user =>
      match data.get "session" with
      | none => .error (.keyError "session")
      | some token =>
        let sdb := SessionController.get_or_create db user.id token now
        let session := sdb.1
        let db1 := sdb.2
        let db2 :=
          match data.get labels.LATITUDE, data.get labels.LONGITUDE with
          | some lat, some lng =>
            (GPSController.register_gps_reading db1 session lat lng now).2
          | _, _ => db1
        let db3 :=
          match data.get labels.FUEL_LEVEL with
          | some v => (FuelController.register_fuel_level db2 session v now).2
          | none => db2
        let db4 :=
          match data.get labels.ENGINE_LOAD with
          | some v => (EngineController.register_load db3 session v now).2
          | none => db3
        let db5 :=
          match data.get labels.ENGINE_RPM with
          | some v => (EngineController.register_rpm db4 session v now).2
          | none => db4
        .ok db5

/-- A parsed CSV data row, restricted to the columns selected by
`CSV_COLUM_SENSOR_MAP`: the timestamp column (already resolved to a
datetime by `BaseODBController._resolve_date_from_csv_row`) and the
five sensor value columns. -/
structure CSVRow where
  date : PyDateTime
  lat : String
  lng : String
  engine_load : String
  engine_rpm : String
  speed : String
  fuel_level : String
  deriving Repr, DecidableEq

/-- The derived CSV session id:
`str(start_datetime.timestamp()).replace('.', '')[:12]` — the
stringified epoch seconds with every dot removed, truncated to the
first 12 characters. -/
def gen_session_id (dt : PyDateTime) : String :=
  String.mk ((dt.timestampStr.data.filter (fun c => c != '.')).take 12)

/-- Modelled from the spec: `GPSController.register_gps_from_csv`
(`app/controllers/odb/gps.py`) is not part of the sources; the spec
says register-from-csv bulk-inserts one row per CSV row for the
session, mapping fixed column names to row fields, flushing once after
the batch since it is called with `flush=True`. -/
def GPSController.register_gps_from_csv (db : DB) (session : ODBSession)
    (csv : List CSVRow) : DB :=
  { db with
    gps_readings := db.gps_readings ++
      csv.map (fun r => GPSReading.mk session.id r.lat r.lng r.date),
    log := db.log ++ csv.map (fun _ => DBEvent.add) ++ [DBEvent.flush] }

/-- Modelled from the spec: `EngineController.register_load_from_csv`
(`app/controllers/odb/engine.py`) is not part of the sources; see
`GPSController.register_gps_from_csv`. -/
def EngineController.register_load_from_csv (db : DB) (session : ODBSession)
    (csv : List CSVRow) : DB :=
  { db with
    engine_load_readings := db.engine_load_readings ++
      csv.map (fun r => SensorReading.mk session.id r.engine_load r.date),
    log := db.log ++ csv.map (fun _ => DBEvent.add) ++ [DBEvent.flush] }

/-- Modelled from the spec: `EngineController.register_rpm_from_csv`
(`app/controllers/odb/engine.py`) is not part of the sources; see
`GPSController.register_gps_from_csv`. -/
def EngineController.register_rpm_from_csv (db : DB) (session : ODBSession)
    (csv : List CSVRow) : DB :=
  { db with
    engine_rpm_readings := db.engine_rpm_readings ++
      csv.map (fun r => SensorReading.mk session.id r.engine_rpm r.date),
    log := db.log ++ csv.map (fun _ => DBEvent.add) ++ [DBEvent.flush] }

/-- Modelled from the spec: `EngineController.register_speed_from_csv`
(`app/controllers/odb/engine.py`) is not part of the sources; see
`GPSController.register_gps_from_csv`. -/
def EngineController.register_speed_from_csv (db : DB) (session : ODBSession)
    (csv : List CSVRow) : DB :=
  { db with
    speed_readings := db.speed_readings ++
      csv.map (fun r => SensorReading.mk session.id r.speed r.date),
    log := db.log ++ csv.map (fun _ => DBEvent.add) ++ [DBEvent.flush] }

/-- Modelled from the spec: `FuelController.register_fuel_level_from_csv`
(`app/controllers/odb/fuel.py`) is not part of the sources; see
`GPSController.register_gps_from_csv`. -/
def FuelController.register_fuel_level_from_csv (db : DB) (session : ODBSession)
    (csv : List CSVRow) : DB :=
  { db with
    fuel_level_readings := db.fuel_level_readings ++
      csv.map (fun r => SensorReading.mk session.id r.fuel_level r.date),
    log := db.log ++ csv.map (fun _ => DBEvent.add) ++ [DBEvent.flush] }

/-- `ODBController.process_csv`: derives the session id from the first
row's timestamp; if a session with that id already exists, returns
immediately; otherwise adds the session row, flushes, delegates
bulk-insert to the GPS, engine-load, engine-RPM, speed and fuel
sub-controllers (each with `flush=True`), and commits once at the end.
An empty table makes `csv.iloc[0]` raise, modelled by `indexError`. -/
def ODBController.process_csv (db : DB) (user : User) (csv : List CSVRow) :
    Except PyError DB :=
  match csv with
  | [] => .error .indexError
  | row0 :: _ =>
    let start_datetime := row0.date
    let sid := gen_session_id start_datetime
    match db.sessions.find? (fun s => s.id == sid) with
    | some _ => .ok db
    | none =>
      let session : ODBSession := ⟨sid, user.id, start_datetime⟩
      let db1 : DB := { db with sessions := db.sessions ++ [session],
                                log := db.log ++ [DBEvent.add, DBEvent.flush] }
      let db2 := GPSController.register_gps_from_csv db1 session csv
      let db3 := EngineController.register_load_from_csv db2 session csv
      let db4 := EngineController.register_rpm_from_csv db3 session csv
      let db5 := EngineController.register_speed_from_csv db4 session csv
      let db6 := FuelController.register_fuel_level_from_csv db5 session csv
      .ok { db6 with log := db6.log ++ [DBEvent.commit] }

/-- A login payload that already passed `LoginSchema` validation
(`app/validators/auth.py`, shape validation out of scope here):
an email and a plaintext password. -/
structure LoginData where
  email : String
  password : String
  deriving Repr, DecidableEq

/-- Outcome of `AuthController.login` on a schema-valid payload:
either the user record, or an `AuthControllerException` carrying its
dict payload. -/
inductive AuthResult where
  | user (u : User)
  | authException (payload : List (String × String))
  deriving Repr, DecidableEq

/-- Modelled from the spec: `UserController.get_user`
(`app/controllers/user.py`) is not part of the sources; the spec says
login looks the user up by email (first match, or nothing). -/
def UserController.get_user (users : List User) (email : String) : Option User :=
  users.find? (fun u => u.email == email)

/-- `AuthController.login` after schema validation: looks the user up
by email, then `assert checkpw(password, user.password)`.  When the
lookup returned `None`, `user.password` raises `AttributeError`; when
`checkpw` is false, the `assert` raises `AssertionError`; both are
caught by the same handler and re-raised as
`AuthControllerException({'invalid': 'Incorrect user and/or password'})`.
`checkpw` (bcrypt) is kept abstract as a function argument. -/
def AuthController.login (checkpw : String → String → Bool)
    (users : List User) (loaded_data : LoginData) : AuthResult :=
  match UserController.get_user users loaded_data.email with
  | none => .authException [("invalid", "Incorrect user and/or password")]
  | some user =>
    if checkpw loaded_data.password user.password then
      .user user
    else
      .authException [("invalid", "Incorrect user and/or password")]

/-!
## Helper lemmas
-/

theorem RequestData.get_eq_none_iff (data : RequestData) (k : String) :
    RequestData.get data k = none ↔ k ∉ RequestData.keys data := by
  rw [RequestData.get, List.lookup_eq_none_iff]
  simp only [RequestData.keys, List.mem_map, bne_iff_ne, ne_eq, not_exists, not_and]
  constructor
  · intro h p hp hk
    exact h p hp hk.symm
  · intro h p hp hk
    exact h p hp hk.symm

theorem RequestData.mem_keys_of_get_eq_some {data : RequestData} {k v : String}
    (h : RequestData.get data k = some v) : k ∈ RequestData.keys data := by
  by_contra hmem
  rw [← RequestData.get_eq_none_iff] at hmem
  rw [h] at hmem
  exact Option.noConfusion hmem

theorem get_or_create_sessions_mem (db : DB) (uid : Nat) (tok : String) (now : PyDateTime) :
    (SessionController.get_or_create db uid tok now).1 ∈
      (SessionController.get_or_create db uid tok now).2.sessions := by
  unfold SessionController.get_or_create
  cases hfind : db.sessions.find? (fun s => s.id == tok && s.user_id == uid) with
  | none => simp
  | some s => simpa using List.mem_of_find?_eq_some hfind

theorem get_or_create_gps_readings (db : DB) (uid : Nat) (tok : String) (now : PyDateTime) :
    (SessionController.get_or_create db uid tok now).2.gps_readings = db.gps_readings := by
  unfold SessionController.get_or_create
  cases db.sessions.find? (fun s => s.id == tok && s.user_id == uid) <;> rfl

theorem get_or_create_engine_load (db : DB) (uid : Nat) (tok : String) (now : PyDateTime) :
    (SessionController.get_or_create db uid tok now).2.engine_load_readings =
      db.engine_load_readings := by
  unfold SessionController.get_or_create
  cases db.sessions.find? (fun s => s.id == tok && s.user_id == uid) <;> rfl

theorem get_or_create_engine_rpm (db : DB) (uid : Nat) (tok : String) (now : PyDateTime) :
    (SessionController.get_or_create db uid tok now).2.engine_rpm_readings =
      db.engine_rpm_readings := by
  unfold SessionController.get_or_create
  cases db.sessions.find? (fun s => s.id == tok && s.user_id == uid) <;> rfl

theorem get_or_create_speed (db : DB) (uid : Nat) (tok : String) (now : PyDateTime) :
    (SessionController.get_or_create db uid tok now).2.speed_readings = db.speed_readings := by
  unfold SessionController.get_or_create
  cases db.sessions.find? (fun s => s.id == tok && s.user_id == uid) <;> rfl

theorem get_or_create_fuel_level (db : DB) (uid : Nat) (tok : String) (now : PyDateTime) :
    (SessionController.get_or_create db uid tok now).2.fuel_level_readings =
      db.fuel_level_readings := by
  unfold SessionController.get_or_create
  cases db.sessions.find? (fun s => s.id == tok && s.user_id == uid) <;> rfl

/-!
## Claims
-/

/-- C1: a CSV upload whose first-row timestamp derives a session id
that already exists is a silent no-op: `process_csv` returns without
error and the store — session rows, reading rows and the operation
log alike — is exactly what it was. -/
theorem process_csv_duplicate_is_noop (db : DB) (user : User) (row0 : CSVRow)
    (rest : List CSVRow)
    (h : ∃ s ∈ db.sessions, s.id = gen_session_id row0.date) :
    ODBController.process_csv db user (row0 :: rest) = .ok db := by
  obtain ⟨s, hs, hid⟩ := h
  rcases hfind : db.sessions.find? (fun s => s.id == gen_session_id row0.date) with _ | s2
  · rw [List.find?_eq_none] at hfind
    exact absurd (by simp [hid]) (hfind s hs)
  · simp [ODBController.process_csv, hfind]

/-- Witness for C1 at a concrete store and upload. -/
theorem process_csv_duplicate_is_noop_witness :
    ODBController.process_csv
      ⟨[], [⟨"163414012345", 1, ⟨"1634140123.456789"⟩⟩], [], [], [], [], [], []⟩
      ⟨1, "a@b.c", "Ann", "Lee", "h"⟩
      [⟨⟨"1634140123.456789"⟩, "1", "2", "3", "4", "5", "6"⟩] =
    .ok ⟨[], [⟨"163414012345", 1, ⟨"1634140123.456789"⟩⟩], [], [], [], [], [], []⟩ :=
  process_csv_duplicate_is_noop _ _ _ _ ⟨⟨"163414012345", 1, ⟨"1634140123.456789"⟩⟩,
    by decide, by decide⟩

/-- C3: the session id `process_csv` derives is the stringified epoch
seconds of the first-row timestamp with the dot removed and truncated
to the first 12 characters (`gen_session_id`, stated against the
`String.take`-based form), so it has length at most 12 and fits the
15-character session id column; on the insert path the created
session row carries exactly this id. -/
theorem gen_session_id_fits_column :
    (∀ dt : PyDateTime,
        gen_session_id dt =
          ((dt.timestampStr.data.filter (fun c => c != '.')).asString).take 12 ∧
        (gen_session_id dt).length ≤ 12 ∧
        (gen_session_id dt).length ≤ ODBSession.ID_COLUMN_CAPACITY) ∧
    ∀ (db : DB) (user : User) (row0 : CSVRow) (rest : List CSVRow),
      db.sessions.find? (fun s => s.id == gen_session_id row0.date) = none →
      ∃ db2 : DB, ODBController.process_csv db user (row0 :: rest) = .ok db2 ∧
        db2.sessions = db.sessions ++ [⟨gen_session_id row0.date, user.id, row0.date⟩] := by
  constructor
  · intro dt
    refine ⟨?_, ?_, ?_⟩
    · rw [List.asString, String.take_eq]
      rfl
    · exact List.length_take_le 12 _
    · exact Nat.le_trans (List.length_take_le 12 _)
        (by norm_num [ODBSession.ID_COLUMN_CAPACITY])
  · intro db user row0 rest hfind
    simp only [ODBController.process_csv, hfind]
    refine ⟨_, rfl, ?_⟩
    simp [GPSController.register_gps_from_csv, EngineController.register_load_from_csv,
      EngineController.register_rpm_from_csv, EngineController.register_speed_from_csv,
      FuelController.register_fuel_level_from_csv]

/-- Witness for C3 at a concrete timestamp and upload. -/
theorem gen_session_id_fits_column_witness :
    (gen_session_id ⟨"1634140123.456789"⟩).length ≤ 12 ∧
    ∃ db2 : DB,
      ODBController.process_csv (DB.mk [] [] [] [] [] [] [] [])
        (User.mk 1 "a@b.c" "Ann" "Lee" "pw")
        [CSVRow.mk ⟨"1634140123.456789"⟩ "1" "2" "3" "4" "5" "6"] = .ok db2 ∧
      db2.sessions = [] ++
        [⟨gen_session_id ⟨"1634140123.456789"⟩, 1, ⟨"1634140123.456789"⟩⟩] :=
  ⟨(gen_session_id_fits_column.1 ⟨"1634140123.456789"⟩).2.1,
   gen_session_id_fits_column.2 (DB.mk [] [] [] [] [] [] [] [])
     (User.mk 1 "a@b.c" "Ann" "Lee" "pw")
     (CSVRow.mk ⟨"1634140123.456789"⟩ "1" "2" "3" "4" "5" "6") [] rfl⟩

/-- C5: a live request in which some key matches the sensor full-name
pattern is dropped before any user or session resolution: whatever the
rest of the payload holds (even no email at all), the call returns
without error and the store is exactly what it was. -/
theorem process_sensor_params_metadata_noop (pats : ODBSensorLabelPatterns)
    (labels : ODBSensorLabels) (db : DB) (data : RequestData) (now : PyDateTime)
    (h : ∃ k ∈ RequestData.keys data, matchesFullName pats k) :
    ODBController.process_sensor_params pats labels db data now = .ok db := by
  have hc : (RequestData.keys data).any (fun k => matchesFullName pats k) = true := by
    rw [List.any_eq_true]
    obtain ⟨k, hk, hp⟩ := h
    exact ⟨k, hk, hp⟩
  simp [ODBController.process_sensor_params, hc]

/-- Witness for C5: a payload with a full-name key and no valid email
is still accepted unchanged. -/
theorem process_sensor_params_metadata_noop_witness :
    ODBController.process_sensor_params ⟨"userFullName"⟩
      (ODBSensorLabels.mk "kff1006" "kff1005" "k2f" "k4" "kc")
      (DB.mk [] [] [] [] [] [] [] [])
      [("userFullName12", "Engine RPM"), ("k4", "17")] ⟨"1.0"⟩ =
    .ok (DB.mk [] [] [] [] [] [] [] []) :=
  process_sensor_params_metadata_noop ⟨"userFullName"⟩
    (ODBSensorLabels.mk "kff1006" "kff1005" "k2f" "k4" "kc")
    (DB.mk [] [] [] [] [] [] [] [])
    [("userFullName12", "Engine RPM"), ("k4", "17")] ⟨"1.0"⟩
    ⟨"userFullName12", by decide, by decide⟩

/-- C6: session resolution is get-or-create keyed by user id and
client token: run once from any store, then again from the resulting
store with the same user id and token, the second call returns the very
row of the first call and leaves the store untouched. -/
theorem get_or_create_idempotent (db : DB) (uid : Nat) (tok : String)
    (now1 now2 : PyDateTime) :
    SessionController.get_or_create
        (SessionController.get_or_create db uid tok now1).2 uid tok now2 =
      ((SessionController.get_or_create db uid tok now1).1,
       (SessionController.get_or_create db uid tok now1).2) := by
  rcases hfind : db.sessions.find? (fun s => s.id == tok && s.user_id == uid) with _ | s
  · unfold SessionController.get_or_create
    rw [hfind]
    simp [List.find?_append, hfind, List.find?]
  · unfold SessionController.get_or_create
    rw [hfind]
    simp [hfind]

/-- C9: a non-metadata request with a resolvable user but no
`'session'` key fails with the raw `KeyError` of `data['session']`,
never with the controller-level `ODBControllerError` that a missing
email gets. -/
theorem process_sensor_params_missing_session_token (pats : ODBSensorLabelPatterns)
    (labels : ODBSensorLabels) (db : DB) (data : RequestData) (now : PyDateTime)
    (user : User)
    (hmeta : ∀ k ∈ RequestData.keys data, ¬ matchesFullName pats k)
    (huser : ODBController.resolve_user db data = .ok user)
    (hsess : RequestData.get data "session" = none) :
    ODBController.process_sensor_params pats labels db data now =
      .error (.keyError "session") ∧
    ∀ msg, ODBController.process_sensor_params pats labels db data now ≠
      .error (.odbControllerError msg) := by
  have hc : (RequestData.keys data).any (fun k => matchesFullName pats k) = false := by
    rw [List.any_eq_false]
    intro k hk
    simpa using hmeta k hk
  have hrun : ODBController.process_sensor_params pats labels db data now =
      .error (.keyError "session") := by
    simp [ODBController.process_sensor_params, hc, huser, hsess]
  refine ⟨hrun, fun msg h => ?_⟩
  rw [hrun] at h
  simp at h

/-- Witness for C9 at a concrete request that has an email but no
session token. -/
theorem process_sensor_params_missing_session_token_witness :
    ODBController.process_sensor_params ⟨"userFullName"⟩
      (ODBSensorLabels.mk "kff1006" "kff1005" "k2f" "k4" "kc")
      (DB.mk [User.mk 1 "a@b.c" "Ann" "Lee" "pw"] [] [] [] [] [] [] [])
      [("eml", "a@b.c")] ⟨"1.0"⟩ = .error (.keyError "session") :=
  (process_sensor_params_missing_session_token ⟨"userFullName"⟩
    (ODBSensorLabels.mk "kff1006" "kff1005" "k2f" "k4" "kc")
    (DB.mk [User.mk 1 "a@b.c" "Ann" "Lee" "pw"] [] [] [] [] [] [] [])
    [("eml", "a@b.c")] ⟨"1.0"⟩ (User.mk 1 "a@b.c" "Ann" "Lee" "pw")
    (by decide) rfl rfl).1

/-- C4 counterexample: both failure branches of `login` carry the dict
`{'invalid': 'Incorrect user and/or password'}` with a capital `I`, so
at this concrete input the result is not the lowercase
`'incorrect user and/or password'` the claim quotes. -/
theorem login_lowercase_message_refuted :
    AuthController.login (fun _ _ => false) [] ⟨"a@b.c", "pw"⟩ =
      .authException [("invalid", "Incorrect user and/or password")] ∧
    AuthController.login (fun _ _ => false) [] ⟨"a@b.c", "pw"⟩ ≠
      .authException [("invalid", "incorrect user and/or password")] :=
  ⟨rfl, by decide⟩

/-- C4 (amended): on a schema-valid payload, `login` returns the user
found by email when the hash check passes, and on unknown email or
failing hash check both branches raise the identical generic
`'Incorrect user and/or password'` message, indistinguishable to the
caller. -/
theorem login_spec (checkpw : String → String → Bool) (users : List User)
    (d : LoginData) :
    (∀ u, UserController.get_user users d.email = some u →
      (checkpw d.password u.password = true →
        AuthController.login checkpw users d = .user u) ∧
      (checkpw d.password u.password = false →
        AuthController.login checkpw users d =
          .authException [("invalid", "Incorrect user and/or password")])) ∧
    (UserController.get_user users d.email = none →
      AuthController.login checkpw users d =
        .authException [("invalid", "Incorrect user and/or password")]) := by
  constructor
  · intro u hu
    constructor <;> intro hc <;> simp [AuthController.login, hu, hc]
  · intro h
    simp [AuthController.login, h]

/-- Witness for C4 covering the success, wrong-password and
unknown-email branches at concrete inputs. -/
theorem login_spec_witness :
    AuthController.login (fun p h => p == h)
      [User.mk 1 "a@b.c" "Ann" "Lee" "pw"] ⟨"a@b.c", "pw"⟩ =
      .user (User.mk 1 "a@b.c" "Ann" "Lee" "pw") ∧
    AuthController.login (fun p h => p == h)
      [User.mk 1 "a@b.c" "Ann" "Lee" "pw"] ⟨"a@b.c", "wrong"⟩ =
      .authException [("invalid", "Incorrect user and/or password")] ∧
    AuthController.login (fun p h => p == h) [] ⟨"a@b.c", "pw"⟩ =
      .authException [("invalid", "Incorrect user and/or password")] :=
  ⟨((login_spec (fun p h => p == h) [User.mk 1 "a@b.c" "Ann" "Lee" "pw"]
      ⟨"a@b.c", "pw"⟩).1 (User.mk 1 "a@b.c" "Ann" "Lee" "pw") (by decide)).1 (by decide),
   ((login_spec (fun p h => p == h) [User.mk 1 "a@b.c" "Ann" "Lee" "pw"]
      ⟨"a@b.c", "wrong"⟩).1 (User.mk 1 "a@b.c" "Ann" "Lee" "pw") (by decide)).2 (by decide),
   (login_spec (fun p h => p == h) [] ⟨"a@b.c", "pw"⟩).2 (by decide)⟩

/-- C8 counterexample: with a stored user whose email is the empty
string and a request carrying `eml=""`, a matching user exists, yet
`_resolve_user` raises `'User email not found'` (the Python falsiness
test `not user_email` fires) instead of returning the user. -/
theorem resolve_user_empty_email_refuted :
    (User.mk 1 "" "Ann" "Lee" "pw") ∈
      (DB.mk [User.mk 1 "" "Ann" "Lee" "pw"] [] [] [] [] [] [] []).users ∧
    RequestData.get [("eml", "")] "eml" = some (User.mk 1 "" "Ann" "Lee" "pw").email ∧
    ODBController.resolve_user
        (DB.mk [User.mk 1 "" "Ann" "Lee" "pw"] [] [] [] [] [] [] [])
        [("eml", "")] =
      .error (.odbControllerError "User email not found") :=
  ⟨by decide, rfl, rfl⟩

/-- C8 (amended): `_resolve_user` raises `'User email not found'` when
the email field is missing or empty; for a non-empty email it raises
`'User does not exist'` when no user matches and returns the matching
user otherwise. -/
theorem resolve_user_spec (db : DB) (data : RequestData) :
    (RequestData.get data "eml" = none →
      ODBController.resolve_user db data =
        .error (.odbControllerError "User email not found")) ∧
    (RequestData.get data "eml" = some "" →
      ODBController.resolve_user db data =
        .error (.odbControllerError "User email not found")) ∧
    ∀ e, RequestData.get data "eml" = some e → e ≠ "" →
      (db.users.find? (fun u => u.email == e) = none →
        ODBController.resolve_user db data =
          .error (.odbControllerError "User does not exist")) ∧
      ∀ u, db.users.find? (fun u => u.email == e) = some u →
        ODBController.resolve_user db data = .ok u := by
  refine ⟨?_, ?_, ?_⟩
  · intro h
    simp [ODBController.resolve_user, h]
  · intro h
    simp [ODBController.resolve_user, h]
  · intro e he hne
    constructor
    · intro h
      simp [ODBController.resolve_user, he, hne, h]
    · intro u h
      simp [ODBController.resolve_user, he, hne, h]

/-- Witness for C8 covering the missing-email, empty-email,
unknown-email and found branches at concrete inputs. -/
theorem resolve_user_spec_witness :
    ODBController.resolve_user (DB.mk [] [] [] [] [] [] [] []) [] =
      .error (.odbControllerError "User email not found") ∧
    ODBController.resolve_user (DB.mk [] [] [] [] [] [] [] []) [("eml", "")] =
      .error (.odbControllerError "User email not found") ∧
    ODBController.resolve_user (DB.mk [] [] [] [] [] [] [] []) [("eml", "a@b.c")] =
      .error (.odbControllerError "User does not exist") ∧
    ODBController.resolve_user
        (DB.mk [User.mk 1 "a@b.c" "Ann" "Lee" "pw"] [] [] [] [] [] [] [])
        [("eml", "a@b.c")] =
      .ok (User.mk 1 "a@b.c" "Ann" "Lee" "pw") :=
  ⟨(resolve_user_spec (DB.mk [] [] [] [] [] [] [] []) []).1 rfl,
   (resolve_user_spec (DB.mk [] [] [] [] [] [] [] []) [("eml", "")]).2.1 rfl,
   ((resolve_user_spec (DB.mk [] [] [] [] [] [] [] []) [("eml", "a@b.c")]).2.2
      "a@b.c" rfl (by decide)).1 rfl,
   ((resolve_user_spec (DB.mk [User.mk 1 "a@b.c" "Ann" "Lee" "pw"] [] [] [] [] [] [] [])
      [("eml", "a@b.c")]).2.2 "a@b.c" rfl (by decide)).2
      (User.mk 1 "a@b.c" "Ann" "Lee" "pw") rfl⟩

/-- C2: a CSV upload with N data rows whose derived session id is new
creates exactly one session row (with the derived id, for the given
user) and appends exactly N GPS, N engine-load, N engine-RPM, N speed
and N fuel-level rows, all referencing that session, and issues exactly
one commit, which comes after every other operation of the upload. -/
theorem process_csv_inserts_all (db : DB) (user : User) (row0 : CSVRow)
    (rest : List CSVRow)
    (hfind : db.sessions.find? (fun s => s.id == gen_session_id row0.date) = none) :
    ∃ db2 : DB, ODBController.process_csv db user (row0 :: rest) = .ok db2 ∧
      db2.sessions = db.sessions ++ [⟨gen_session_id row0.date, user.id, row0.date⟩] ∧
      (∃ rows, db2.gps_readings = db.gps_readings ++ rows ∧
        rows.length = (row0 :: rest).length ∧
        ∀ r ∈ rows, r.session_id = gen_session_id row0.date) ∧
      (∃ rows, db2.engine_load_readings = db.engine_load_readings ++ rows ∧
        rows.length = (row0 :: rest).length ∧
        ∀ r ∈ rows, r.session_id = gen_session_id row0.date) ∧
      (∃ rows, db2.engine_rpm_readings = db.engine_rpm_readings ++ rows ∧
        rows.length = (row0 :: rest).length ∧
        ∀ r ∈ rows, r.session_id = gen_session_id row0.date) ∧
      (∃ rows, db2.speed_readings = db.speed_readings ++ rows ∧
        rows.length = (row0 :: rest).length ∧
        ∀ r ∈ rows, r.session_id = gen_session_id row0.date) ∧
      (∃ rows, db2.fuel_level_readings = db.fuel_level_readings ++ rows ∧
        rows.length = (row0 :: rest).length ∧
        ∀ r ∈ rows, r.session_id = gen_session_id row0.date) ∧
      ∃ pre, db2.log = db.log ++ pre ++ [DBEvent.commit] ∧ DBEvent.commit ∉ pre := by
  simp only [ODBController.process_csv, hfind, GPSController.register_gps_from_csv,
    EngineController.register_load_from_csv, EngineController.register_rpm_from_csv,
    EngineController.register_speed_from_csv, FuelController.register_fuel_level_from_csv]
  refine ⟨_, rfl, by simp, ?_, ?_, ?_, ?_, ?_, ?_⟩
  · exact ⟨(row0 :: rest).map
      (fun r => GPSReading.mk (gen_session_id row0.date) r.lat r.lng r.date),
      by simp, by simp, by simp⟩
  · exact ⟨(row0 :: rest).map
      (fun r => SensorReading.mk (gen_session_id row0.date) r.engine_load r.date),
      by simp, by simp, by simp⟩
  · exact ⟨(row0 :: rest).map
      (fun r => SensorReading.mk (gen_session_id row0.date) r.engine_rpm r.date),
      by simp, by simp, by simp⟩
  · exact ⟨(row0 :: rest).map
      (fun r => SensorReading.mk (gen_session_id row0.date) r.speed r.date),
      by simp, by simp, by simp⟩
  · exact ⟨(row0 :: rest).map
      (fun r => SensorReading.mk (gen_session_id row0.date) r.fuel_level r.date),
      by simp, by simp, by simp⟩
  · refine ⟨[DBEvent.add, DBEvent.flush] ++
      ((row0 :: rest).map (fun _ => DBEvent.add) ++ [DBEvent.flush]) ++
      ((row0 :: rest).map (fun _ => DBEvent.add) ++ [DBEvent.flush]) ++
      ((row0 :: rest).map (fun _ => DBEvent.add) ++ [DBEvent.flush]) ++
      ((row0 :: rest).map (fun _ => DBEvent.add) ++ [DBEvent.flush]) ++
      ((row0 :: rest).map (fun _ => DBEvent.add) ++ [DBEvent.flush]), ?_, ?_⟩
    · simp [List.append_assoc]
    · simp [List.mem_append, List.mem_map]

/-- Witness for C2 at a concrete two-row upload into an empty store. -/
theorem process_csv_inserts_all_witness :
    ∃ db2 : DB,
      ODBController.process_csv (DB.mk [] [] [] [] [] [] [] [])
        (User.mk 1 "a@b.c" "Ann" "Lee" "pw")
        [CSVRow.mk ⟨"1634140123.456789"⟩ "1" "2" "3" "4" "5" "6",
         CSVRow.mk ⟨"1634140124.0"⟩ "a" "b" "c" "d" "e" "f"] = .ok db2 ∧
      db2.sessions = [] ++
        [⟨gen_session_id ⟨"1634140123.456789"⟩, 1, ⟨"1634140123.456789"⟩⟩] ∧
      (∃ rows, db2.gps_readings = [] ++ rows ∧
        rows.length = [CSVRow.mk ⟨"1634140123.456789"⟩ "1" "2" "3" "4" "5" "6",
          CSVRow.mk ⟨"1634140124.0"⟩ "a" "b" "c" "d" "e" "f"].length ∧
        ∀ r ∈ rows, r.session_id = gen_session_id ⟨"1634140123.456789"⟩) ∧
      (∃ rows, db2.engine_load_readings = [] ++ rows ∧
        rows.length = [CSVRow.mk ⟨"1634140123.456789"⟩ "1" "2" "3" "4" "5" "6",
          CSVRow.mk ⟨"1634140124.0"⟩ "a" "b" "c" "d" "e" "f"].length ∧
        ∀ r ∈ rows, r.session_id = gen_session_id ⟨"1634140123.456789"⟩) ∧
      (∃ rows, db2.engine_rpm_readings = [] ++ rows ∧
        rows.length = [CSVRow.mk ⟨"1634140123.456789"⟩ "1" "2" "3" "4" "5" "6",
          CSVRow.mk ⟨"1634140124.0"⟩ "a" "b" "c" "d" "e" "f"].length ∧
        ∀ r ∈ rows, r.session_id = gen_session_id ⟨"1634140123.456789"⟩) ∧
      (∃ rows, db2.speed_readings = [] ++ rows ∧
        rows.length = [CSVRow.mk ⟨"1634140123.456789"⟩ "1" "2" "3" "4" "5" "6",
          CSVRow.mk ⟨"1634140124.0"⟩ "a" "b" "c" "d" "e" "f"].length ∧
        ∀ r ∈ rows, r.session_id = gen_session_id ⟨"1634140123.456789"⟩) ∧
      (∃ rows, db2.fuel_level_readings = [] ++ rows ∧
        rows.length = [CSVRow.mk ⟨"1634140123.456789"⟩ "1" "2" "3" "4" "5" "6",
          CSVRow.mk ⟨"1634140124.0"⟩ "a" "b" "c" "d" "e" "f"].length ∧
        ∀ r ∈ rows, r.session_id = gen_session_id ⟨"1634140123.456789"⟩) ∧
      ∃ pre, db2.log = [] ++ pre ++ [DBEvent.commit] ∧ DBEvent.commit ∉ pre :=
  process_csv_inserts_all (DB.mk [] [] [] [] [] [] [] [])
    (User.mk 1 "a@b.c" "Ann" "Lee" "pw")
    (CSVRow.mk ⟨"1634140123.456789"⟩ "1" "2" "3" "4" "5" "6")
    [CSVRow.mk ⟨"1634140124.0"⟩ "a" "b" "c" "d" "e" "f"] rfl

/-- C7: on a non-metadata request with a resolvable user and a session
token, when both the latitude key and the longitude key are present
exactly one GPS reading tied to the resolved session is appended, and
when either of the two keys is absent the GPS table is untouched; in
both cases the call returns without error. -/
theorem process_sensor_params_gps_reading (pats : ODBSensorLabelPatterns)
    (labels : ODBSensorLabels) (db : DB) (data : RequestData) (now : PyDateTime)
    (user : User) (tok : String)
    (hmeta : ∀ k ∈ RequestData.keys data, ¬ matchesFullName pats k)
    (huser : ODBController.resolve_user db data = .ok user)
    (htok : RequestData.get data "session" = some tok) :
    ∃ db2 : DB, ODBController.process_sensor_params pats labels db data now = .ok db2 ∧
      ((labels.LATITUDE ∈ RequestData.keys data ∧
        labels.LONGITUDE ∈ RequestData.keys data) →
        ∃ lat lng, db2.gps_readings = db.gps_readings ++
          [⟨(SessionController.get_or_create db user.id tok now).1.id, lat, lng, now⟩]) ∧
      (¬(labels.LATITUDE ∈ RequestData.keys data ∧
         labels.LONGITUDE ∈ RequestData.keys data) →
        db2.gps_readings = db.gps_readings) := by
  have hc : (RequestData.keys data).any (fun k => matchesFullName pats k) = false := by
    rw [List.any_eq_false]
    intro k hk
    simpa using hmeta k hk
  rcases hlat : RequestData.get data labels.LATITUDE with _ | lat <;>
    rcases hlng : RequestData.get data labels.LONGITUDE with _ | lng <;>
    rcases hfl : RequestData.get data labels.FUEL_LEVEL with _ | fv <;>
    rcases hlo : RequestData.get data labels.ENGINE_LOAD with _ | lv <;>
    rcases hrp : RequestData.get data labels.ENGINE_RPM with _ | rv <;>
    simp only [ODBController.process_sensor_params, hc, huser, htok,
      hlat, hlng, hfl, hlo, hrp] <;>
    refine ⟨_, rfl, ?_, ?_⟩ <;>
    intro hm
  all_goals try exact absurd hm.1 ((RequestData.get_eq_none_iff data labels.LATITUDE).mp hlat)
  all_goals try exact absurd hm.2 ((RequestData.get_eq_none_iff data labels.LONGITUDE).mp hlng)
  all_goals try (refine ⟨lat, lng, ?_⟩
                 simp [GPSController.register_gps_reading, FuelController.register_fuel_level,
                   EngineController.register_load, EngineController.register_rpm,
                   get_or_create_gps_readings])
  all_goals try simp [GPSController.register_gps_reading, FuelController.register_fuel_level,
        EngineController.register_load, EngineController.register_rpm,
        get_or_create_gps_readings]
  all_goals try exact absurd (And.intro (RequestData.mem_keys_of_get_eq_some hlat)
        (RequestData.mem_keys_of_get_eq_some hlng)) hm

/-- Witness for C7: one request with both GPS keys, one with only
latitude; exactly one and zero GPS rows are appended respectively. -/
theorem process_sensor_params_gps_reading_witness :
    (∃ db2 : DB, ODBController.process_sensor_params ⟨"userFullName"⟩
        (ODBSensorLabels.mk "kff1006" "kff1005" "k2f" "k4" "kc")
        (DB.mk [User.mk 1 "a@b.c" "Ann" "Lee" "pw"] [] [] [] [] [] [] [])
        [("eml", "a@b.c"), ("session", "t1"), ("kff1006", "-5.8"), ("kff1005", "-35.2")]
        ⟨"1.0"⟩ = .ok db2 ∧
      (("kff1006" ∈ RequestData.keys
          [("eml", "a@b.c"), ("session", "t1"), ("kff1006", "-5.8"), ("kff1005", "-35.2")] ∧
        "kff1005" ∈ RequestData.keys
          [("eml", "a@b.c"), ("session", "t1"), ("kff1006", "-5.8"), ("kff1005", "-35.2")]) →
        ∃ lat lng, db2.gps_readings = [] ++
          [⟨(SessionController.get_or_create
              (DB.mk [User.mk 1 "a@b.c" "Ann" "Lee" "pw"] [] [] [] [] [] [] [])
              1 "t1" ⟨"1.0"⟩).1.id, lat, lng, ⟨"1.0"⟩⟩]) ∧
      (¬("kff1006" ∈ RequestData.keys
          [("eml", "a@b.c"), ("session", "t1"), ("kff1006", "-5.8"), ("kff1005", "-35.2")] ∧
        "kff1005" ∈ RequestData.keys
          [("eml", "a@b.c"), ("session", "t1"), ("kff1006", "-5.8"), ("kff1005", "-35.2")]) →
        db2.gps_readings = [])) ∧
    ∃ db3 : DB, ODBController.process_sensor_params ⟨"userFullName"⟩
        (ODBSensorLabels.mk "kff1006" "kff1005" "k2f" "k4" "kc")
        (DB.mk [User.mk 1 "a@b.c" "Ann" "Lee" "pw"] [] [] [] [] [] [] [])
        [("eml", "a@b.c"), ("session", "t1"), ("kff1006", "-5.8")]
        ⟨"1.0"⟩ = .ok db3 ∧
      (("kff1006" ∈ RequestData.keys
          [("eml", "a@b.c"), ("session", "t1"), ("kff1006", "-5.8")] ∧
        "kff1005" ∈ RequestData.keys
          [("eml", "a@b.c"), ("session", "t1"), ("kff1006", "-5.8")]) →
        ∃ lat lng, db3.gps_readings = [] ++
          [⟨(SessionController.get_or_create
              (DB.mk [User.mk 1 "a@b.c" "Ann" "Lee" "pw"] [] [] [] [] [] [] [])
              1 "t1" ⟨"1.0"⟩).1.id, lat, lng, ⟨"1.0"⟩⟩]) ∧
      (¬("kff1006" ∈ RequestData.keys
          [("eml", "a@b.c"), ("session", "t1"), ("kff1006", "-5.8")] ∧
        "kff1005" ∈ RequestData.keys
          [("eml", "a@b.c"), ("session", "t1"), ("kff1006", "-5.8")]) →
        db3.gps_readings = []) :=
  ⟨process_sensor_params_gps_reading ⟨"userFullName"⟩
      (ODBSensorLabels.mk "kff1006" "kff1005" "k2f" "k4" "kc")
      (DB.mk [User.mk 1 "a@b.c" "Ann" "Lee" "pw"] [] [] [] [] [] [] [])
      [("eml", "a@b.c"), ("session", "t1"), ("kff1006", "-5.8"), ("kff1005", "-35.2")]
      ⟨"1.0"⟩ (User.mk 1 "a@b.c" "Ann" "Lee" "pw") "t1" (by decide) rfl rfl,
   process_sensor_params_gps_reading ⟨"userFullName"⟩
      (ODBSensorLabels.mk "kff1006" "kff1005" "k2f" "k4" "kc")
      (DB.mk [User.mk 1 "a@b.c" "Ann" "Lee" "pw"] [] [] [] [] [] [] [])
      [("eml", "a@b.c"), ("session", "t1"), ("kff1006", "-5.8")]
      ⟨"1.0"⟩ (User.mk 1 "a@b.c" "Ann" "Lee" "pw") "t1" (by decide) rfl rfl⟩

/-- C10: a non-metadata request with a resolvable user and a session
token but no recognized sensor key still performs the session
get-or-create — the resolved session row is in the resulting store —
and returns without error while persisting zero readings of any kind. -/
theorem process_sensor_params_session_only (pats : ODBSensorLabelPatterns)
    (labels : ODBSensorLabels) (db : DB) (data : RequestData) (now : PyDateTime)
    (user : User) (tok : String)
    (hmeta : ∀ k ∈ RequestData.keys data, ¬ matchesFullName pats k)
    (huser : ODBController.resolve_user db data = .ok user)
    (htok : RequestData.get data "session" = some tok)
    (hlat : RequestData.get data labels.LATITUDE = none)
    (hlng : RequestData.get data labels.LONGITUDE = none)
    (hfl : RequestData.get data labels.FUEL_LEVEL = none)
    (hlo : RequestData.get data labels.ENGINE_LOAD = none)
    (hrp : RequestData.get data labels.ENGINE_RPM = none) :
    ODBController.process_sensor_params pats labels db data now =
      .ok (SessionController.get_or_create db user.id tok now).2 ∧
    (SessionController.get_or_create db user.id tok now).1 ∈
      (SessionController.get_or_create db user.id tok now).2.sessions ∧
    (SessionController.get_or_create db user.id tok now).2.gps_readings =
      db.gps_readings ∧
    (SessionController.get_or_create db user.id tok now).2.engine_load_readings =
      db.engine_load_readings ∧
    (SessionController.get_or_create db user.id tok now).2.engine_rpm_readings =
      db.engine_rpm_readings ∧
    (SessionController.get_or_create db user.id tok now).2.speed_readings =
      db.speed_readings ∧
    (SessionController.get_or_create db user.id tok now).2.fuel_level_readings =
      db.fuel_level_readings := by
  have hc : (RequestData.keys data).any (fun k => matchesFullName pats k) = false := by
    rw [List.any_eq_false]
    intro k hk
    simpa using hmeta k hk
  refine ⟨?_, get_or_create_sessions_mem db user.id tok now,
    get_or_create_gps_readings db user.id tok now,
    get_or_create_engine_load db user.id tok now,
    get_or_create_engine_rpm db user.id tok now,
    get_or_create_speed db user.id tok now,
    get_or_create_fuel_level db user.id tok now⟩
  simp [ODBController.process_sensor_params, hc, huser, htok, hlat, hlng, hfl, hlo, hrp]

/-- Witness for C10 at a concrete request carrying only an email and a
session token. -/
theorem process_sensor_params_session_only_witness :
    ODBController.process_sensor_params ⟨"userFullName"⟩
      (ODBSensorLabels.mk "kff1006" "kff1005" "k2f" "k4" "kc")
      (DB.mk [User.mk 1 "a@b.c" "Ann" "Lee" "pw"] [] [] [] [] [] [] [])
      [("eml", "a@b.c"), ("session", "t1")] ⟨"1.0"⟩ =
      .ok (SessionController.get_or_create
        (DB.mk [User.mk 1 "a@b.c" "Ann" "Lee" "pw"] [] [] [] [] [] [] [])
        1 "t1" ⟨"1.0"⟩).2 ∧
    (SessionController.get_or_create
      (DB.mk [User.mk 1 "a@b.c" "Ann" "Lee" "pw"] [] [] [] [] [] [] [])
      1 "t1" ⟨"1.0"⟩).1 ∈
      (SessionController.get_or_create
        (DB.mk [User.mk 1 "a@b.c" "Ann" "Lee" "pw"] [] [] [] [] [] [] [])
        1 "t1" ⟨"1.0"⟩).2.sessions ∧
    (SessionController.get_or_create
      (DB.mk [User.mk 1 "a@b.c" "Ann" "Lee" "pw"] [] [] [] [] [] [] [])
      1 "t1" ⟨"1.0"⟩).2.gps_readings = [] ∧
    (SessionController.get_or_create
      (DB.mk [User.mk 1 "a@b.c" "Ann" "Lee" "pw"] [] [] [] [] [] [] [])
      1 "t1" ⟨"1.0"⟩).2.engine_load_readings = [] ∧
    (SessionController.get_or_create
      (DB.mk [User.mk 1 "a@b.c" "Ann" "Lee" "pw"] [] [] [] [] [] [] [])
      1 "t1" ⟨"1.0"⟩).2.engine_rpm_readings = [] ∧
    (SessionController.get_or_create
      (DB.mk [User.mk 1 "a@b.c" "Ann" "Lee" "pw"] [] [] [] [] [] [] [])
      1 "t1" ⟨"1.0"⟩).2.speed_readings = [] ∧
    (SessionController.get_or_create
      (DB.mk [User.mk 1 "a@b.c" "Ann" "Lee" "pw"] [] [] [] [] [] [] [])
      1 "t1" ⟨"1.0"⟩).2.fuel_level_readings = [] :=
  process_sensor_params_session_only ⟨"userFullName"⟩
    (ODBSensorLabels.mk "kff1006" "kff1005" "k2f" "k4" "kc")
    (DB.mk [User.mk 1 "a@b.c" "Ann" "Lee" "pw"] [] [] [] [] [] [] [])
    [("eml", "a@b.c"), ("session", "t1")] ⟨"1.0"⟩
    (User.mk 1 "a@b.c" "Ann" "Lee" "pw") "t1"
    (by decide) rfl rfl rfl rfl rfl rfl rfl

end ObdDashboard
